import Mathlib

/-!
Shallow embedding of `orbiter_props_export.py`, the Blender-to-Orbiter
header exporter.  Coordinates are modelled as exact rationals; Python's
float formatting is abstracted by an exact rational renderer `fmtQ`;
Blender's `bpy.data` name-indexed collections are modelled as lists with
name lookup, and a failed lookup (Python `KeyError`) is the
`ExportError.resourceNotFound` case.  The Python implementation iterates
the built-in `set` `all_rockets`, whose iteration order is unspecified;
the model takes that order as an explicit parameter `order` applied to
the deduplicated accumulated contents (a Python set iteration always
yields some duplicate-free permutation of the contents).
-/

namespace Orbiter

/-- A 3D point or vector, `(x, y, z)`. -/
abbrev Pt : Type := ℚ × ℚ × ℚ

/-- Line 43-45: `convert_to_orbiter(pos)` returns `(-pos[0], pos[2], -pos[1])`. -/
def convert_to_orbiter (pos : Pt) : Pt :=
  (-pos.1, pos.2.2, -pos.2.1)

/-- A mesh: its vertex coordinates in stored order. -/
structure Mesh where
  verts : List Pt
deriving DecidableEq, Repr

/-- A 4x4 matrix, as in `mathutils.Matrix`. -/
abbrev Mat4 : Type := Fin 4 → Fin 4 → ℚ

/-- Row-by-column 4x4 matrix product, as in `mathutils` `A * B`. -/
def matMul (A B : Mat4) : Mat4 := fun i j =>
  A i 0 * B 0 j + A i 1 * B 1 j + A i 2 * B 2 j + A i 3 * B 3 j

/-- `Matrix.Translation(t)`: the identity matrix with translation column `t`. -/
def translationMat (t : Pt) : Mat4 := fun i j =>
  if j = 3 then
    (if i = 0 then t.1 else if i = 1 then t.2.1 else if i = 2 then t.2.2 else 1)
  else if i = j then 1 else 0

/-- The identity matrix. -/
def idMat : Mat4 := fun i j => if i = j then 1 else 0

/-- Componentwise vector subtraction. -/
def ptSub (p q : Pt) : Pt := (p.1 - q.1, p.2.1 - q.2.1, p.2.2 - q.2.2)

/-- Componentwise vector negation (`Vector.negate`). -/
def ptNeg (p : Pt) : Pt := (-p.1, -p.2.1, -p.2.2)

/-- A Blender scene object as read by the exporter: its identity (Python
object identity, used by `set` deduplication), name, object type,
`location` attribute, world matrix and optional mesh data. -/
structure Obj where
  id : Nat
  name : String
  type : String
  location : Pt
  matrix_world : Mat4
  data : Option Mesh

/-- An entry of `bpy.data.groups`: a named collection of objects in the
collection's own stored order. -/
structure Group where
  name : String
  objects : List Obj

/-- The scene data the exporter reads: `bpy.data.objects` and `bpy.data.groups`. -/
structure Scene where
  objects : List Obj
  groups : List Group

/-- One entry of `orbiter.rocket_groups` (class `OrbiterRocketGroup` plus the
`name` of the property-group item): a display name and the name of the
source collection. -/
structure RocketGroupCfg where
  name : String
  group : String

/-- The user-configured settings (`OrbiterProperties`). -/
structure OrbiterProps where
  rocket_groups : List RocketGroupCfg
  ccage : String
  ccage_suffix : String
  header_file : String

/-- Name lookup in `bpy.data.objects`. -/
def lookupObject (scene : Scene) (key : String) : Option Obj :=
  scene.objects.find? (fun o => o.name == key)

/-- Name lookup in `bpy.data.groups`. -/
def lookupGroup (scene : Scene) (key : String) : Option Group :=
  scene.groups.find? (fun g => g.name == key)

/-- The error taxonomy: a `KeyError` from a name lookup is
`resourceNotFound`; a cage object without mesh data is `invalidInput`. -/
inductive ExportError where
  | resourceNotFound (name : String)
  | invalidInput (name : String)
deriving DecidableEq, Repr

/-- Python `round` to an integer: round half to even (banker's rounding). -/
def pyRound (q : ℚ) : ℤ :=
  let f : ℤ := ⌊q⌋
  let frac : ℚ := q - f
  if frac < 1/2 then f
  else if 1/2 < frac then f + 1
  else if f % 2 = 0 then f else f + 1

/-- Python `round(x, 2)`: round to 2 decimal digits. -/
def round2 (q : ℚ) : ℚ := (pyRound (q * 100) : ℚ) / 100

/-- Python number formatting, abstracted as exact rational rendering. -/
def fmtQ (q : ℚ) : String :=
  if q.den = 1 then toString q.num else toString q.num ++ "/" ++ toString q.den

/-- Python `'\x7b\x7b\x7b\x7d, \x7b\x7d, \x7b\x7d\x7d\x7d'.format(*p)`. -/
def fmtTriple (p : Pt) : String :=
  "\x7b" ++ fmtQ p.1 ++ ", " ++ fmtQ p.2.1 ++ ", " ++ fmtQ p.2.2 ++ "\x7d"

/-- Python `str.upper`, modelled for ASCII: upper-case every character. -/
def pyUpper (s : String) : String := String.mk (s.data.map Char.toUpper)

/-- The fixed contact-point parameter string of line 88. -/
def contactProps : String := "1e6, 1e5, 1.6"

/-- Lines 81-88: convert a cage vertex, round each coordinate to 2 decimals,
and format the `TOUCHDOWNVTX` row with the fixed parameter triple. -/
def vertLine (co : Pt) : String :=
  let c := convert_to_orbiter co
  let x := round2 c.1
  let y := round2 c.2.1
  let z := round2 c.2.2
  "\x7b_V(" ++ fmtQ x ++ ", " ++ fmtQ y ++ ", " ++ fmtQ z ++ "), " ++ contactProps ++ "\x7d"

/-- Round all three coordinates to 2 decimals. -/
def round2Triple (p : Pt) : Pt := (round2 p.1, round2 p.2.1, round2 p.2.2)

/-- Render one contact point (rounded target-basis position plus parameter
string) as a `TOUCHDOWNVTX` row. -/
def renderContact (c : Pt × String) : String :=
  "\x7b_V(" ++ fmtQ c.1.1 ++ ", " ++ fmtQ c.1.2.1 ++ ", " ++ fmtQ c.1.2.2 ++ "), " ++ c.2 ++ "\x7d"

/-- The state of a `bmesh` handle: its vertex data and whether it has been
freed. -/
structure BMesh where
  verts : List Pt
  freed : Bool

/-- `bm.free()`. -/
def freeBM (bm : BMesh) : BMesh := { bm with freed := true }

/-- Lines 48-60, the `bmesh_object` context manager driving a `with` block:
`__enter__` builds a fresh bmesh from the mesh data; the body runs (and may
raise, returning `Except.error`); `__exit__` always runs, writing the bmesh
back to the mesh (`bm.to_mesh`) and freeing it.  Returns the body's result,
the mesh after `__exit__`, and whether the handle was freed. -/
def withBmeshObject {α : Type} (m : Mesh) (body : BMesh → Except ExportError α × BMesh) :
    Except ExportError α × Mesh × Bool :=
  let bm0 : BMesh := { verts := m.verts, freed := false }
  let r := body bm0
  let m' : Mesh := { verts := r.2.verts }
  (r.1, m', (freeBM r.2).freed)

/-- Lines 77-89: the body of the `with` block — iterate `bm.verts` in stored
order building the `TOUCHDOWNVTX` rows; the bmesh is only read. -/
def cageBody (bm : BMesh) : Except ExportError (List String) × BMesh :=
  (Except.ok (bm.verts.map vertLine), bm)

/-- Lines 76-89 as a whole: run the cage body under the scoped bmesh handle. -/
def cageSection (m : Mesh) : Except ExportError (List String) × Mesh × Bool :=
  withBmeshObject m cageBody

/-- `set.add` under Python object identity: append unless already present. -/
def setAdd (acc : List Obj) (o : Obj) : List Obj :=
  if acc.any (fun x => x.id == o.id) then acc else acc ++ [o]

/-- `all_rockets.update(objs)`: add every member. -/
def updateSet (acc : List Obj) (objs : List Obj) : List Obj :=
  objs.foldl setAdd acc

/-- Lines 96-98: accumulate the deduplicated set of members of every
configured rocket group, failing with `resourceNotFound` on the first
configured group whose collection does not exist.  The result list is the
set's contents in first-insertion order; actual iteration order is
supplied separately. -/
def gatherAllRockets (scene : Scene) : List RocketGroupCfg → List Obj → Except ExportError (List Obj)
  | [], acc => Except.ok acc
  | g :: rest, acc =>
    match lookupGroup scene g.group with
    | none => Except.error (ExportError.resourceNotFound g.group)
    | some grp => gatherAllRockets scene rest (updateSet acc grp.objects)

/-- Line 105: `name = rocket.name.upper()`. -/
def rocketMacroName (o : Obj) : String := pyUpper o.name

/-- Line 117: `'#define \x7bprefix\x7d\x7bname\x7d \x7bindex\x7d;'` with empty prefix. -/
def defineStr (o : Obj) (index : Nat) : String :=
  "#define " ++ rocketMacroName o ++ " " ++ toString index ++ ";"

/-- Line 115: the exported rocket position, `convert_to_orbiter(rocket.location)`. -/
def rocketPosition (o : Obj) : Pt := convert_to_orbiter o.location

/-- Lines 107-111 and 116: `mat = rocket.matrix_world * Matrix.Translation((0,0,1))`;
`dir = Vector((mat[0][3], mat[1][3], mat[2][3])) - rocket.location`;
`dir.negate()`; the exported direction is `convert_to_orbiter(dir)`. -/
def rocketDirection (o : Obj) : Pt :=
  let mat := matMul o.matrix_world (translationMat (0, 0, 1))
  let d := ptSub (mat 0 3, mat 1 3, mat 2 3) o.location
  convert_to_orbiter (ptNeg d)

/-- The formatted rocket position string of line 115. -/
def posStr (o : Obj) : String := fmtTriple (rocketPosition o)

/-- The formatted rocket direction string of line 116. -/
def dirStr (o : Obj) : String := fmtTriple (rocketDirection o)

/-- Lines 103-122, one iteration: objects of type `EMPTY` get a `#define`
line carrying index `len(rockets_pos)` and parallel position/direction rows;
other objects are skipped. -/
def rocketLoopStep (acc : List String × List String × List String) (rocket : Obj) :
    List String × List String × List String :=
  if rocket.type == "EMPTY" then
    let index := acc.2.1.length
    (acc.1 ++ [defineStr rocket index], acc.2.1 ++ [posStr rocket], acc.2.2 ++ [dirStr rocket])
  else acc

/-- Lines 100-122: the loop over the iteration sequence of `all_rockets`,
building `rockets`, `rockets_pos` and `rockets_dir`. -/
def rocketLoop (objs : List Obj) : List String × List String × List String :=
  objs.foldl rocketLoopStep ([], [], [])

/-- The name-to-index assignment embodied in the loop of lines 103-122:
each `EMPTY` object, in iteration order, paired with the index it
receives (`len(rockets_pos)` at that moment). -/
def indexAssignment (objs : List Obj) : List (Obj × Nat) :=
  objs.foldl
    (fun acc rocket =>
      if rocket.type == "EMPTY" then acc ++ [(rocket, acc.length)] else acc)
    []

/-- Lines 124-132 (the lookups and member-name lists): one block per
configured group, in configured order, listing raw member names in the
source collection's own order; fails on a missing collection. -/
def groupBlocks (scene : Scene) : List RocketGroupCfg → Except ExportError (List (String × List String))
  | [] => Except.ok []
  | g :: rest =>
    match lookupGroup scene g.group with
    | none => Except.error (ExportError.resourceNotFound g.group)
    | some grp =>
      match groupBlocks scene rest with
      | Except.error e => Except.error e
      | Except.ok bs => Except.ok ((g.name, grp.objects.map (fun o => o.name)) :: bs)

/-- Python `sep.join(list)`. -/
def joinSep (sep : String) : List String → String
  | [] => ""
  | s :: rest => rest.foldl (fun acc t => acc ++ sep ++ t) s

/-- Lines 130-132: render one `const int <group> \x7b ... \x7d` block. -/
def renderGroupBlock (b : String × List String) : String :=
  "const int " ++ b.1 ++ " \x7b\n    " ++ joinSep ",\n    " b.2 ++ "\n\x7d\n"

/-- `os.path.basename`, for slash-separated paths. -/
def basename (p : String) : String := (p.splitOn "/").getLastD ""

/-- The stem part of `os.path.splitext` (common case: split at the last dot). -/
def splitextStem (s : String) : String :=
  let parts := s.splitOn "."
  if parts.length ≤ 1 then s else String.intercalate "." parts.dropLast

/-- The `template_context` dictionary handed to `str.format` on line 146. -/
structure TemplateContext where
  defname : String
  ccage_verts : String
  ccage_vert_count : Nat
  ccage_suffix : String
  rocket_names : String
  rocket_pos_name : String
  rocket_pos : String
  rocket_dir_name : String
  rocket_dir : String
  rocket_groups : String
deriving DecidableEq, Repr, Inhabited

/-- Assemble the `template_context` from the computed pieces (lines 71,
91-93, 134-141), joining the per-row string lists exactly as the source
does. -/
def mkTemplateContext (orbiter : OrbiterProps) (defname : String)
    (vert_list rockets rockets_pos rockets_dir : List String)
    (blocks : List (String × List String)) : TemplateContext :=
  { defname := defname
    ccage_verts := joinSep ",\n    " vert_list
    ccage_vert_count := vert_list.length
    ccage_suffix := orbiter.ccage_suffix
    rocket_names := joinSep "\n" rockets
    rocket_pos_name := "ROCKET_POSITIONS"
    rocket_pos := joinSep ",\n    " rockets_pos
    rocket_dir_name := "ROCKET_DIRECTIONS"
    rocket_dir := joinSep ",\n    " rockets_dir
    rocket_groups := String.join (blocks.map renderGroupBlock) }

/-- `OrbiterExportHeaderFile.execute` (lines 68-148), up to the file write:
compute the template context, or fail.  `order` models the unspecified
iteration order of the Python set `all_rockets`: it is applied to the
deduplicated contents before the rocket loop runs. -/
def execute (order : List Obj → List Obj) (orbiter : OrbiterProps) (scene : Scene) :
    Except ExportError TemplateContext :=
  let defname := pyUpper (splitextStem (basename orbiter.header_file))
  match lookupObject scene orbiter.ccage with
  | none => Except.error (ExportError.resourceNotFound orbiter.ccage)
  | some cage =>
    match cage.data with
    | none => Except.error (ExportError.invalidInput orbiter.ccage)
    | some mesh =>
      match (cageSection mesh).1 with
      | Except.error e => Except.error e
      | Except.ok vert_list =>
        match gatherAllRockets scene orbiter.rocket_groups [] with
        | Except.error e => Except.error e
        | Except.ok all_rockets =>
          let rl := rocketLoop (order all_rockets)
          match groupBlocks scene orbiter.rocket_groups with
          | Except.error e => Except.error e
          | Except.ok blocks =>
            Except.ok (mkTemplateContext orbiter defname vert_list rl.1 rl.2.1 rl.2.2 blocks)

/-- Line 146: `_HEADER_FILE_TEMPLATE.format(**template_context)`. -/
def renderHeaderFile (ctx : TemplateContext) : String :=
  "#ifndef _" ++ ctx.defname ++ "_H_\n#define _" ++ ctx.defname ++ "_H_\n\n"
    ++ ctx.rocket_names ++ "\n\nstatic const DWORD ntdvtx" ++ ctx.ccage_suffix
    ++ " = " ++ toString ctx.ccage_vert_count ++ ";\nstatic TOUCHDOWNVTX tdvtx"
    ++ ctx.ccage_suffix ++ "[ntdvtx" ++ ctx.ccage_suffix ++ "] = \x7b\n\t"
    ++ ctx.ccage_verts ++ "\n\x7d;\n\nconst " ++ ctx.rocket_pos_name
    ++ " = \x7b\n    " ++ ctx.rocket_pos ++ "\n\x7d;\n\nconst " ++ ctx.rocket_dir_name
    ++ " = \x7b\n    " ++ ctx.rocket_dir ++ "\n\x7d;\n\n" ++ ctx.rocket_groups
    ++ "\n\n#endif // _" ++ ctx.defname ++ "_H_\n"

/-- Lines 145-146 seen from the file system: on success the output path
holds the rendered text (overwriting whatever was there); on any error the
file is never opened, so the previous state of the path persists. -/
def runExportToFile (order : List Obj → List Obj) (orbiter : OrbiterProps) (scene : Scene)
    (prev : Option String) : Option String :=
  match execute order orbiter scene with
  | Except.ok ctx => some (renderHeaderFile ctx)
  | Except.error _ => prev

/-- Specification-side enumerator: each object of the list paired with its
position counted from `k`. -/
def pairsFrom : Nat → List Obj → List (Obj × Nat)
  | _, [] => []
  | k, o :: rest => (o, k) :: pairsFrom (k + 1) rest

/-- Specification-side reading of the world matrix: its translation column,
the object's world-space location. -/
def worldTranslation (M : Mat4) : Pt := (M 0 3, M 1 3, M 2 3)

/-- Specification-side matrix action on a point (homogeneous coordinate 1):
the local point `p` transformed to world space. -/
def applyMat4Point (M : Mat4) (p : Pt) : Pt :=
  (M 0 0 * p.1 + M 0 1 * p.2.1 + M 0 2 * p.2.2 + M 0 3,
   M 1 0 * p.1 + M 1 1 * p.2.1 + M 1 2 * p.2.2 + M 1 3,
   M 2 0 * p.1 + M 2 1 * p.2.1 + M 2 2 * p.2.2 + M 2 3)

/-- Fixture: an eligible thruster object named `A`. -/
def objA : Obj := ⟨0, "A", "EMPTY", (0, 0, 0), idMat, none⟩

/-- Fixture: an eligible thruster object named `B`. -/
def objB : Obj := ⟨1, "B", "EMPTY", (0, 0, 0), idMat, none⟩

/-- Fixture: a non-eligible (mesh-type) group member named `C`. -/
def objC : Obj := ⟨2, "C", "MESH", (0, 0, 0), idMat, none⟩

/-- Fixture: the collision-cage object, with a one-vertex mesh. -/
def cageObj : Obj := ⟨3, "CAGE", "MESH", (0, 0, 0), idMat, some ⟨[(1, 2, 3)]⟩⟩

/-- Fixture scene: collection `G` holds `A`, `B` and the non-eligible `C`;
collection `H` shares member `B` with `G`. -/
def scene0 : Scene :=
  ⟨[cageObj, objA, objB, objC], [⟨"G", [objA, objB, objC]⟩, ⟨"H", [objB]⟩]⟩

/-- Fixture configuration: two rocket groups over `G` and `H`, cage `CAGE`. -/
def props0 : OrbiterProps := ⟨[⟨"MAIN", "G"⟩, ⟨"AUX", "H"⟩], "CAGE", "_fore", "vessel.h"⟩

/-- The template context the fixture export produces (under the identity
set-iteration order). -/
def ctx0 : TemplateContext :=
  match execute (fun l => l) props0 scene0 with
  | Except.ok c => c
  | Except.error _ => default

/-- Fixture configuration whose cage name resolves to no scene object. -/
def propsNoCage : OrbiterProps := ⟨[⟨"MAIN", "G"⟩], "MISSING", "_fore", "vessel.h"⟩

/-- Fixture: an eligible object whose `location` attribute differs from the
translation column of its world matrix (as for a parented object). -/
def objP : Obj := ⟨4, "P", "EMPTY", (1, 0, 0), idMat, none⟩

/-- Fixture: lower-case-named eligible object. -/
def objFoo : Obj := ⟨5, "foo", "EMPTY", (0, 0, 0), idMat, none⟩

/-- Fixture: upper-case-named eligible object, distinct from `objFoo`. -/
def objFOO : Obj := ⟨6, "FOO", "EMPTY", (0, 0, 0), idMat, none⟩

/-- Fixture: a one-vertex mesh for the resource-scope theorem. -/
def mesh9 : Mesh := ⟨[(1, 2, 3)]⟩

/-- Fixture: a `with`-block body that raises without touching the bmesh. -/
def errBody : BMesh → Except ExportError (List String) × BMesh :=
  fun bm => (Except.error (ExportError.invalidInput "cage"), bm)

theorem pairsFrom_map_fst (k : Nat) (l : List Obj) :
    (pairsFrom k l).map Prod.fst = l := by
  induction l generalizing k with
  | nil => rfl
  | cons o t ih => simp [pairsFrom, ih]

theorem pairsFrom_map_snd (k : Nat) (l : List Obj) :
    (pairsFrom k l).map Prod.snd = List.range' k l.length := by
  induction l generalizing k with
  | nil => rfl
  | cons o t ih => simp [pairsFrom, ih, List.range'_succ]

theorem rocketLoop_fold (objs : List Obj) : ∀ (r p d : List String),
    objs.foldl rocketLoopStep (r, p, d) =
      (r ++ (pairsFrom p.length (objs.filter (fun o => o.type == "EMPTY"))).map
          (fun q => defineStr q.1 q.2),
       p ++ (objs.filter (fun o => o.type == "EMPTY")).map posStr,
       d ++ (objs.filter (fun o => o.type == "EMPTY")).map dirStr) := by
  induction objs with
  | nil => intro r p d; simp [pairsFrom]
  | cons o t ih =>
    intro r p d
    cases h : o.type == "EMPTY" with
    | false => simp [rocketLoopStep, h, List.filter_cons, ih]
    | true =>
      simp only [List.foldl_cons, rocketLoopStep, h, if_true, List.filter_cons, ih,
        List.length_append, List.length_singleton, pairsFrom, List.map_cons]
      simp [List.append_assoc]

/-- The rocket loop produces the defines, positions and directions of the
eligible objects, in iteration order, with the position-list length as the
running index. -/
theorem rocketLoop_eq (objs : List Obj) :
    rocketLoop objs =
      ((pairsFrom 0 (objs.filter (fun o => o.type == "EMPTY"))).map
          (fun q => defineStr q.1 q.2),
       (objs.filter (fun o => o.type == "EMPTY")).map posStr,
       (objs.filter (fun o => o.type == "EMPTY")).map dirStr) := by
  simpa using rocketLoop_fold objs [] [] []

theorem indexAssignment_fold (objs : List Obj) : ∀ (acc : List (Obj × Nat)),
    objs.foldl
        (fun acc rocket =>
          if rocket.type == "EMPTY" then acc ++ [(rocket, acc.length)] else acc)
        acc =
      acc ++ pairsFrom acc.length (objs.filter (fun o => o.type == "EMPTY")) := by
  induction objs with
  | nil => intro acc; simp [pairsFrom]
  | cons o t ih =>
    intro acc
    cases h : o.type == "EMPTY" with
    | false =>
      rw [List.foldl_cons, if_neg (by simp [h]), List.filter_cons_of_neg (by simp [h])]
      exact ih acc
    | true =>
      simp only [List.foldl_cons, h, if_true, List.filter_cons, ih,
        List.length_append, List.length_singleton, pairsFrom]
      simp [List.append_assoc]

theorem indexAssignment_eq (objs : List Obj) :
    indexAssignment objs = pairsFrom 0 (objs.filter (fun o => o.type == "EMPTY")) := by
  simpa [indexAssignment] using indexAssignment_fold objs []

theorem setAdd_nodup (acc : List Obj) (o : Obj) (h : (acc.map Obj.id).Nodup) :
    ((setAdd acc o).map Obj.id).Nodup := by
  unfold setAdd
  split
  · exact h
  · next hany =>
    rw [List.map_append]
    rw [List.nodup_append]
    refine ⟨h, List.nodup_singleton _, ?_⟩
    intro x hx hy
    simp only [List.map_singleton, List.mem_singleton] at hy
    subst hy
    rw [List.mem_map] at hx
    obtain ⟨y, hy, hid⟩ := hx
    have := List.any_eq_false.mp (Bool.not_eq_true _ ▸ hany) y hy
    exact this (by simpa using hid)

theorem updateSet_nodup (objs : List Obj) : ∀ (acc : List Obj),
    (acc.map Obj.id).Nodup → ((updateSet acc objs).map Obj.id).Nodup := by
  induction objs with
  | nil => intro acc h; exact h
  | cons o t ih =>
    intro acc h
    exact ih (setAdd acc o) (setAdd_nodup acc o h)

theorem gatherAllRockets_nodup (scene : Scene) :
    ∀ (cfgs : List RocketGroupCfg) (acc rs : List Obj),
      (acc.map Obj.id).Nodup →
      gatherAllRockets scene cfgs acc = Except.ok rs → (rs.map Obj.id).Nodup := by
  intro cfgs
  induction cfgs with
  | nil =>
    intro acc rs hacc h
    simp only [gatherAllRockets, Except.ok.injEq] at h
    exact h ▸ hacc
  | cons c rest ih =>
    intro acc rs hacc h
    simp only [gatherAllRockets] at h
    cases hc : lookupGroup scene c.group with
    | none => rw [hc] at h; cases h
    | some grp =>
      rw [hc] at h
      exact ih _ rs (updateSet_nodup grp.objects acc hacc) h

theorem gatherAllRockets_error (scene : Scene) :
    ∀ (cfgs : List RocketGroupCfg) (acc : List Obj),
      (∃ g ∈ cfgs, lookupGroup scene g.group = none) →
      ∃ n, gatherAllRockets scene cfgs acc = Except.error (ExportError.resourceNotFound n) := by
  intro cfgs
  induction cfgs with
  | nil => intro acc h; simp at h
  | cons c rest ih =>
    intro acc h
    cases hc : lookupGroup scene c.group with
    | none => exact ⟨c.group, by simp [gatherAllRockets, hc]⟩
    | some grp =>
      obtain ⟨g, hg, hnone⟩ := h
      rcases List.mem_cons.mp hg with rfl | hmem
      · rw [hc] at hnone; cases hnone
      · obtain ⟨n, hn⟩ := ih (updateSet acc grp.objects) ⟨g, hmem, hnone⟩
        exact ⟨n, by simp [gatherAllRockets, hc, hn]⟩

theorem groupBlocks_spec (scene : Scene) :
    ∀ (cfgs : List RocketGroupCfg) (bs : List (String × List String)),
      groupBlocks scene cfgs = Except.ok bs →
      bs.length = cfgs.length ∧
      ∀ i (hi : i < cfgs.length), ∃ grp,
        lookupGroup scene (cfgs.get ⟨i, hi⟩).group = some grp ∧
        bs.getD i ("", []) =
          ((cfgs.get ⟨i, hi⟩).name, grp.objects.map (fun o => o.name)) := by
  intro cfgs
  induction cfgs with
  | nil =>
    intro bs h
    simp only [groupBlocks, Except.ok.injEq] at h
    subst h
    exact ⟨rfl, fun i hi => absurd hi (Nat.not_lt_zero i)⟩
  | cons c rest ih =>
    intro bs h
    simp only [groupBlocks] at h
    cases hc : lookupGroup scene c.group with
    | none => rw [hc] at h; cases h
    | some grp =>
      rw [hc] at h
      cases hr : groupBlocks scene rest with
      | error e => rw [hr] at h; cases h
      | ok bs' =>
        rw [hr] at h
        simp only [Except.ok.injEq] at h
        subst h
        obtain ⟨hlen, hidx⟩ := ih bs' hr
        refine ⟨by simp [hlen], ?_⟩
        intro i hi
        cases i with
        | zero => exact ⟨grp, hc, rfl⟩
        | succ j =>
          obtain ⟨grp', h1, h2⟩ := hidx j (Nat.lt_of_succ_lt_succ hi)
          exact ⟨grp', h1, h2⟩

/-- Inversion of a successful `execute`: every stage succeeded and the
context is the one assembled from the stage results. -/
theorem execute_ok_inv (order : List Obj → List Obj) (props : OrbiterProps) (scene : Scene)
    (ctx : TemplateContext) (h : execute order props scene = Except.ok ctx) :
    ∃ cage mesh rs bs,
      lookupObject scene props.ccage = some cage ∧
      cage.data = some mesh ∧
      gatherAllRockets scene props.rocket_groups [] = Except.ok rs ∧
      groupBlocks scene props.rocket_groups = Except.ok bs ∧
      ctx = mkTemplateContext props (pyUpper (splitextStem (basename props.header_file)))
              (mesh.verts.map vertLine)
              (rocketLoop (order rs)).1 (rocketLoop (order rs)).2.1 (rocketLoop (order rs)).2.2
              bs := by
  cases hc : lookupObject scene props.ccage with
  | none => simp [execute, hc] at h
  | some cage =>
    cases hd : cage.data with
    | none => simp [execute, hc, hd] at h
    | some mesh =>
      cases hg : gatherAllRockets scene props.rocket_groups [] with
      | error e =>
        simp [execute, hc, hd, hg, cageSection, withBmeshObject, cageBody, freeBM] at h
      | ok rs =>
        cases hb : groupBlocks scene props.rocket_groups with
        | error e =>
          simp [execute, hc, hd, hg, hb, cageSection, withBmeshObject, cageBody, freeBM] at h
        | ok bs =>
          simp only [execute, hc, hd, hg, hb, cageSection, withBmeshObject, cageBody, freeBM,
            Except.ok.injEq] at h
          exact ⟨cage, mesh, rs, bs, rfl, hd, rfl, rfl, h.symm⟩

/-- C3: the coordinate conversion returns exactly `(-x, z, -y)` for every
input point; it is a total function of the triple (so pure, with no failure
modes); in particular `convert((1,2,3)) = (-1,3,-2)` and
`convert((0,0,0)) = (0,0,0)`. -/
theorem c3_convert_to_orbiter :
    (∀ p : Pt, convert_to_orbiter p = (-p.1, p.2.2, -p.2.1))
    ∧ convert_to_orbiter (1, 2, 3) = (-1, 3, -2)
    ∧ convert_to_orbiter (0, 0, 0) = (0, 0, 0) :=
  ⟨fun _ => rfl, by norm_num [convert_to_orbiter], by norm_num [convert_to_orbiter]⟩

/-- C1: the name-to-index mapping is NOT independent of the unordered set's
iteration order.  On the fixture scene, the identity enumeration and the
reversed enumeration of the very same deduplicated set contents — both
legitimate iteration orders of a Python set, as the permutation conjunct
records — yield different `#define` mappings, so index assignment depends
on the set's iteration order and two runs on an unchanged scene can differ. -/
theorem c1_index_assignment_depends_on_set_order :
    gatherAllRockets scene0 props0.rocket_groups [] = Except.ok [objA, objB, objC]
    ∧ (List.reverse [objA, objB, objC]).Perm [objA, objB, objC]
    ∧ ((execute (fun l => l) props0 scene0).map TemplateContext.rocket_names).toOption
        = some "#define A 0;\n#define B 1;"
    ∧ ((execute List.reverse props0 scene0).map TemplateContext.rocket_names).toOption
        = some "#define B 0;\n#define A 1;"
    ∧ ("#define A 0;\n#define B 1;" : String) ≠ "#define B 0;\n#define A 1;" :=
  ⟨rfl, List.reverse_perm _, by decide, by decide, by decide⟩

/-- C9: the scoped bmesh handle is released on every exit path of the
`with` block — whether the body returns normally or raises — and the mesh
written back on release holds exactly the vertex data read on acquisition,
so for any body that does not mutate the bmesh (such as the cage body,
which only reads) the mesh is identical before and after; in particular
the cage section of `execute` leaves the cage mesh unchanged. -/
theorem c9_bmesh_scope_preserves_mesh {α : Type} (m : Mesh)
    (body : BMesh → Except ExportError α × BMesh)
    (h : ∀ bm, ((body bm).2).verts = bm.verts) :
    (withBmeshObject m body).2.2 = true
    ∧ (withBmeshObject m body).2.1 = m
    ∧ (cageSection m).2.1 = m
    ∧ (cageSection m).2.2 = true := by
  refine ⟨rfl, ?_, rfl, rfl⟩
  show ({ verts := ((body { verts := m.verts, freed := false }).2).verts } : Mesh) = m
  rw [h]

/-- Witness for C9 at a concrete mesh and a concrete body that raises:
the handle is still freed and the mesh still round-trips unchanged. -/
theorem c9_bmesh_scope_preserves_mesh_witness :
    (∀ bm, ((errBody bm).2).verts = bm.verts)
    ∧ ((withBmeshObject mesh9 errBody).2.2 = true
       ∧ (withBmeshObject mesh9 errBody).2.1 = mesh9
       ∧ (cageSection mesh9).2.1 = mesh9
       ∧ (cageSection mesh9).2.2 = true) :=
  ⟨fun _ => rfl, c9_bmesh_scope_preserves_mesh mesh9 errBody (fun _ => rfl)⟩

/-- C10: the macro name emitted in a `#define` line is the object's name
converted to upper case (not the authored name), so two distinct eligible
objects whose names agree up to letter case — and which therefore both
receive indices — produce identical macro names. -/
theorem c10_macro_names_upper_cased (a b : Obj) (k : Nat)
    (h : pyUpper a.name = pyUpper b.name) (ha : a.type = "EMPTY") (hb : b.type = "EMPTY") :
    rocketMacroName a = pyUpper a.name
    ∧ rocketMacroName a = rocketMacroName b
    ∧ defineStr a k = "#define " ++ pyUpper a.name ++ " " ++ toString k ++ ";"
    ∧ (indexAssignment [a, b]).map (fun p => (rocketMacroName p.1, p.2))
        = [(rocketMacroName a, 0), (rocketMacroName a, 1)] := by
  refine ⟨rfl, ?_, rfl, ?_⟩
  · simp [rocketMacroName, h]
  · simp [indexAssignment, ha, hb, rocketMacroName, h]

/-- Witness for C10: the distinct objects named `foo` and `FOO` are both
indexed and share the macro name `FOO`. -/
theorem c10_macro_names_upper_cased_witness :
    ((pyUpper objFoo.name = pyUpper objFOO.name)
     ∧ objFoo.type = "EMPTY" ∧ objFOO.type = "EMPTY")
    ∧ (rocketMacroName objFoo = pyUpper objFoo.name
       ∧ rocketMacroName objFoo = rocketMacroName objFOO
       ∧ defineStr objFoo 0 = "#define " ++ pyUpper objFoo.name ++ " " ++ toString 0 ++ ";"
       ∧ (indexAssignment [objFoo, objFOO]).map (fun p => (rocketMacroName p.1, p.2))
           = [(rocketMacroName objFoo, 0), (rocketMacroName objFoo, 1)]) :=
  ⟨⟨by decide, rfl, rfl⟩, c10_macro_names_upper_cased objFoo objFOO 0 (by decide) rfl rfl⟩

/-- C2: when the configured cage name resolves to no scene object, or when
the cage resolves (with mesh data) but some configured rocket group names a
collection that does not exist, `execute` fails with `resourceNotFound`
before the output file is ever opened, so whatever was at the output path —
a previous file, or nothing — persists unchanged. -/
theorem c2_missing_resource_aborts_without_write (order : List Obj → List Obj)
    (props : OrbiterProps) (scene : Scene)
    (h : lookupObject scene props.ccage = none
         ∨ ((∃ cage, lookupObject scene props.ccage = some cage ∧ ∃ mesh, cage.data = some mesh)
            ∧ ∃ g ∈ props.rocket_groups, lookupGroup scene g.group = none)) :
    (∃ n, execute order props scene = Except.error (ExportError.resourceNotFound n))
    ∧ ∀ prev, runExportToFile order props scene prev = prev := by
  have hmain : ∃ n, execute order props scene
      = Except.error (ExportError.resourceNotFound n) := by
    rcases h with hnone | ⟨⟨cage, hc, mesh, hm⟩, hg⟩
    · exact ⟨props.ccage, by simp [execute, hnone]⟩
    · obtain ⟨n, hn⟩ := gatherAllRockets_error scene props.rocket_groups [] hg
      exact ⟨n, by simp [execute, hc, hm, hn, cageSection, withBmeshObject, cageBody, freeBM]⟩
  refine ⟨hmain, fun prev => ?_⟩
  obtain ⟨n, hn⟩ := hmain
  unfold runExportToFile
  rw [hn]

/-- C6 (amended): for every thruster object whose `location` attribute
equals the translation column of its world matrix — as holds for any
unparented object — the exported direction is the local `+Z` point
transformed to world space, minus the world location, negated exactly once,
then converted; the exported position is the world location converted; and
the rendered strings carry these exact values with no rounding applied. -/
theorem c6_thruster_geometry (o : Obj)
    (h : o.location = worldTranslation o.matrix_world) :
    rocketDirection o
      = convert_to_orbiter (ptNeg (ptSub (applyMat4Point o.matrix_world (0, 0, 1))
          (worldTranslation o.matrix_world)))
    ∧ rocketPosition o = convert_to_orbiter (worldTranslation o.matrix_world)
    ∧ posStr o = fmtTriple (rocketPosition o)
    ∧ dirStr o = fmtTriple (rocketDirection o) := by
  have t0 : translationMat ((0 : ℚ), 0, 1) 0 3 = 0 := rfl
  have t1 : translationMat ((0 : ℚ), 0, 1) 1 3 = 0 := rfl
  have t2 : translationMat ((0 : ℚ), 0, 1) 2 3 = 1 := rfl
  have t3 : translationMat ((0 : ℚ), 0, 1) 3 3 = 1 := rfl
  have key : ∀ i : Fin 4, matMul o.matrix_world (translationMat (0, 0, 1)) i 3
      = o.matrix_world i 2 + o.matrix_world i 3 := by
    intro i
    show o.matrix_world i 0 * translationMat (0, 0, 1) 0 3
        + o.matrix_world i 1 * translationMat (0, 0, 1) 1 3
        + o.matrix_world i 2 * translationMat (0, 0, 1) 2 3
        + o.matrix_world i 3 * translationMat (0, 0, 1) 3 3
        = o.matrix_world i 2 + o.matrix_world i 3
    rw [t0, t1, t2, t3]
    ring
  have appz : applyMat4Point o.matrix_world (0, 0, 1)
      = (o.matrix_world 0 2 + o.matrix_world 0 3,
         o.matrix_world 1 2 + o.matrix_world 1 3,
         o.matrix_world 2 2 + o.matrix_world 2 3) := by
    show (o.matrix_world 0 0 * 0 + o.matrix_world 0 1 * 0 + o.matrix_world 0 2 * 1
            + o.matrix_world 0 3,
          o.matrix_world 1 0 * 0 + o.matrix_world 1 1 * 0 + o.matrix_world 1 2 * 1
            + o.matrix_world 1 3,
          o.matrix_world 2 0 * 0 + o.matrix_world 2 1 * 0 + o.matrix_world 2 2 * 1
            + o.matrix_world 2 3) = _
    norm_num
  refine ⟨?_, ?_, rfl, rfl⟩
  · simp only [rocketDirection]
    rw [key 0, key 1, key 2, appz, h]
  · simp only [rocketPosition]
    rw [h]

/-- Counterexample to C6 as stated: an object whose `location` attribute
differs from its world matrix's translation column (as for a parented
object).  The code computes position and direction from `rocket.location`,
not from the world-matrix translation, so both disagree with the claimed
formulas over the world location. -/
theorem c6_thruster_geometry_counterexample :
    rocketPosition objP ≠ convert_to_orbiter (worldTranslation objP.matrix_world)
    ∧ rocketDirection objP
        ≠ convert_to_orbiter (ptNeg (ptSub (applyMat4Point objP.matrix_world (0, 0, 1))
            (worldTranslation objP.matrix_world))) := by
  have h1 : rocketPosition objP = (-1, 0, 0) := by
    norm_num [rocketPosition, objP, convert_to_orbiter]
  have h2 : convert_to_orbiter (worldTranslation objP.matrix_world) = (0, 0, 0) := by
    simp +decide [worldTranslation, objP, idMat, convert_to_orbiter]
  have h3 : rocketDirection objP = (-1, -1, 0) := by
    simp +decide [rocketDirection, objP, idMat, translationMat, matMul, ptSub, ptNeg,
      convert_to_orbiter]
  have h4 : convert_to_orbiter (ptNeg (ptSub (applyMat4Point objP.matrix_world (0, 0, 1))
      (worldTranslation objP.matrix_world))) = (0, -1, 0) := by
    simp +decide [applyMat4Point, worldTranslation, objP, idMat, ptSub, ptNeg,
      convert_to_orbiter]
  refine ⟨?_, ?_⟩
  · rw [h1, h2]; decide
  · rw [h3, h4]; decide

/-- Witness for C6 at the concrete unparented object `objA`. -/
theorem c6_thruster_geometry_witness :
    (objA.location = worldTranslation objA.matrix_world)
    ∧ (rocketDirection objA
        = convert_to_orbiter (ptNeg (ptSub (applyMat4Point objA.matrix_world (0, 0, 1))
            (worldTranslation objA.matrix_world)))
       ∧ rocketPosition objA = convert_to_orbiter (worldTranslation objA.matrix_world)
       ∧ posStr objA = fmtTriple (rocketPosition objA)
       ∧ dirStr objA = fmtTriple (rocketDirection objA)) :=
  ⟨by decide, c6_thruster_geometry objA (by decide)⟩

/-- C5: on any successful export, the emitted vertex count is the cage
mesh's vertex count (derived, never hard-coded), and the contact-point rows
are exactly the mesh's vertices in stored order, each converted, rounded to
2 decimal digits per coordinate, and paired with the fixed parameter triple
`1e6, 1e5, 1.6`. -/
theorem c5_contact_points (order : List Obj → List Obj) (props : OrbiterProps)
    (scene : Scene) (ctx : TemplateContext)
    (h : execute order props scene = Except.ok ctx) :
    ∃ cage mesh, lookupObject scene props.ccage = some cage ∧ cage.data = some mesh
      ∧ ctx.ccage_vert_count = mesh.verts.length
      ∧ ctx.ccage_verts = joinSep ",\n    "
          (mesh.verts.map
            (fun v => renderContact (round2Triple (convert_to_orbiter v), contactProps)))
      ∧ contactProps = "1e6, 1e5, 1.6" := by
  obtain ⟨cage, mesh, rs, bs, hc, hd, hg, hb, hctx⟩ := execute_ok_inv order props scene ctx h
  subst hctx
  refine ⟨cage, mesh, hc, hd, ?_, ?_, rfl⟩
  · simp [mkTemplateContext]
  · show joinSep ",\n    " (mesh.verts.map vertLine) = _
    have hv : mesh.verts.map vertLine
        = mesh.verts.map
            (fun v => renderContact (round2Triple (convert_to_orbiter v), contactProps)) := rfl
    rw [hv]

/-- Witness for C5 on the fixture scene and its computed context. -/
theorem c5_contact_points_witness :
    (execute (fun l => l) props0 scene0 = Except.ok ctx0)
    ∧ (∃ cage mesh, lookupObject scene0 props0.ccage = some cage ∧ cage.data = some mesh
        ∧ ctx0.ccage_vert_count = mesh.verts.length
        ∧ ctx0.ccage_verts = joinSep ",\n    "
            (mesh.verts.map
              (fun v => renderContact (round2Triple (convert_to_orbiter v), contactProps)))
        ∧ contactProps = "1e6, 1e5, 1.6") :=
  ⟨rfl, c5_contact_points (fun l => l) props0 scene0 ctx0 rfl⟩

/-- C7: on any successful export the artifact's group section is one block
per configured rocket group, in configured order; block `i` carries the
`i`-th configured group's display name and the raw (authored, unconverted)
names of every member of its source collection, in the collection's own
order — so non-eligible members and members shared with other groups all
appear in every block that lists them. -/
theorem c7_group_blocks (order : List Obj → List Obj) (props : OrbiterProps)
    (scene : Scene) (ctx : TemplateContext)
    (h : execute order props scene = Except.ok ctx) :
    ∃ bs, groupBlocks scene props.rocket_groups = Except.ok bs
      ∧ ctx.rocket_groups = String.join (bs.map renderGroupBlock)
      ∧ bs.length = props.rocket_groups.length
      ∧ ∀ i (hi : i < props.rocket_groups.length), ∃ grp,
          lookupGroup scene ((props.rocket_groups.get ⟨i, hi⟩).group) = some grp
          ∧ bs.getD i ("", []) = ((props.rocket_groups.get ⟨i, hi⟩).name,
              grp.objects.map (fun o => o.name))
          ∧ ∀ o ∈ grp.objects, o.name ∈ (bs.getD i ("", [])).2 := by
  obtain ⟨cage, mesh, rs, bs, hc, hd, hg, hb, hctx⟩ := execute_ok_inv order props scene ctx h
  subst hctx
  obtain ⟨hlen, hidx⟩ := groupBlocks_spec scene props.rocket_groups bs hb
  refine ⟨bs, hb, rfl, hlen, ?_⟩
  intro i hi
  obtain ⟨grp, h1, h2⟩ := hidx i hi
  refine ⟨grp, h1, h2, ?_⟩
  intro o ho
  rw [h2]
  exact List.mem_map_of_mem _ ho

/-- Witness for C7 on the fixture scene (collection `G` holds the
non-eligible `C`; member `B` is shared between both groups). -/
theorem c7_group_blocks_witness :
    (execute (fun l => l) props0 scene0 = Except.ok ctx0)
    ∧ (∃ bs, groupBlocks scene0 props0.rocket_groups = Except.ok bs
        ∧ ctx0.rocket_groups = String.join (bs.map renderGroupBlock)
        ∧ bs.length = props0.rocket_groups.length
        ∧ ∀ i (hi : i < props0.rocket_groups.length), ∃ grp,
            lookupGroup scene0 ((props0.rocket_groups.get ⟨i, hi⟩).group) = some grp
            ∧ bs.getD i ("", []) = ((props0.rocket_groups.get ⟨i, hi⟩).name,
                grp.objects.map (fun o => o.name))
            ∧ ∀ o ∈ grp.objects, o.name ∈ (bs.getD i ("", [])).2) :=
  ⟨rfl, c7_group_blocks (fun l => l) props0 scene0 ctx0 rfl⟩

/-- C8: on any successful export, the `#define` lines are rendered from the
eligible objects in iteration order paired with their indices, the `k`-th
pair being the `k`-th eligible object with index exactly `k` (the pairs
project to the eligible list and to `0, 1, ..., N-1`), and the
`ROCKET_POSITIONS` and `ROCKET_DIRECTIONS` arrays map that same eligible
list in the same order, so slot `i` of both arrays belongs to the rocket
whose index macro equals `i`. -/
theorem c8_define_order_parallel_arrays (order : List Obj → List Obj)
    (props : OrbiterProps) (scene : Scene) (ctx : TemplateContext)
    (h : execute order props scene = Except.ok ctx) :
    ∃ rs, gatherAllRockets scene props.rocket_groups [] = Except.ok rs
      ∧ ctx.rocket_names = joinSep "\n"
          ((pairsFrom 0 ((order rs).filter (fun o => o.type == "EMPTY"))).map
            (fun p => defineStr p.1 p.2))
      ∧ (pairsFrom 0 ((order rs).filter (fun o => o.type == "EMPTY"))).map Prod.fst
          = (order rs).filter (fun o => o.type == "EMPTY")
      ∧ (pairsFrom 0 ((order rs).filter (fun o => o.type == "EMPTY"))).map Prod.snd
          = List.range (((order rs).filter (fun o => o.type == "EMPTY")).length)
      ∧ ctx.rocket_pos = joinSep ",\n    "
          (((order rs).filter (fun o => o.type == "EMPTY")).map posStr)
      ∧ ctx.rocket_dir = joinSep ",\n    "
          (((order rs).filter (fun o => o.type == "EMPTY")).map dirStr) := by
  obtain ⟨cage, mesh, rs, bs, hc, hd, hg, hb, hctx⟩ := execute_ok_inv order props scene ctx h
  subst hctx
  have hrl := rocketLoop_eq (order rs)
  refine ⟨rs, hg, ?_, pairsFrom_map_fst 0 _, ?_, ?_, ?_⟩
  · show joinSep "\n" (rocketLoop (order rs)).1 = _
    rw [hrl]
  · rw [pairsFrom_map_snd, List.range_eq_range']
  · show joinSep ",\n    " (rocketLoop (order rs)).2.1 = _
    rw [hrl]
  · show joinSep ",\n    " (rocketLoop (order rs)).2.2 = _
    rw [hrl]

/-- Witness for C8 on the fixture scene and its computed context. -/
theorem c8_define_order_parallel_arrays_witness :
    (execute (fun l => l) props0 scene0 = Except.ok ctx0)
    ∧ (∃ rs, gatherAllRockets scene0 props0.rocket_groups [] = Except.ok rs
        ∧ ctx0.rocket_names = joinSep "\n"
            ((pairsFrom 0 (rs.filter (fun o => o.type == "EMPTY"))).map
              (fun p => defineStr p.1 p.2))
        ∧ (pairsFrom 0 (rs.filter (fun o => o.type == "EMPTY"))).map Prod.fst
            = rs.filter (fun o => o.type == "EMPTY")
        ∧ (pairsFrom 0 (rs.filter (fun o => o.type == "EMPTY"))).map Prod.snd
            = List.range ((rs.filter (fun o => o.type == "EMPTY")).length)
        ∧ ctx0.rocket_pos = joinSep ",\n    "
            ((rs.filter (fun o => o.type == "EMPTY")).map posStr)
        ∧ ctx0.rocket_dir = joinSep ",\n    "
            ((rs.filter (fun o => o.type == "EMPTY")).map dirStr)) :=
  ⟨rfl, c8_define_order_parallel_arrays (fun l => l) props0 scene0 ctx0 rfl⟩

/-- C4: for any iteration order of the deduplicated member set, the indices
assigned are exactly `0, 1, ..., N-1` with no gaps or repeats, where `N` is
the number of eligible (`EMPTY`-type) objects among the distinct members of
all configured groups (the deduplicated set carries no duplicate object),
and every eligible member — even one belonging to several groups — receives
exactly one index; the `#define` lines are the rendering of exactly this
assignment. -/
theorem c4_contiguous_unique_indices (order : List Obj → List Obj)
    (props : OrbiterProps) (scene : Scene) (rs : List Obj)
    (h1 : gatherAllRockets scene props.rocket_groups [] = Except.ok rs)
    (h2 : (order rs).Perm rs) :
    (indexAssignment (order rs)).map Prod.snd
        = List.range (((order rs).filter (fun o => o.type == "EMPTY")).length)
    ∧ ((order rs).filter (fun o => o.type == "EMPTY")).length
        = (rs.filter (fun o => o.type == "EMPTY")).length
    ∧ (rs.map Obj.id).Nodup
    ∧ (∀ o ∈ rs, o.type = "EMPTY" →
        ((indexAssignment (order rs)).map (fun p => p.1.id)).count o.id = 1)
    ∧ (rocketLoop (order rs)).1
        = (indexAssignment (order rs)).map (fun p => defineStr p.1 p.2) := by
  have hia := indexAssignment_eq (order rs)
  have hnd : (rs.map Obj.id).Nodup :=
    gatherAllRockets_nodup scene props.rocket_groups [] rs (by simp) h1
  refine ⟨?_, (h2.filter _).length_eq, hnd, ?_, ?_⟩
  · rw [hia, pairsFrom_map_snd, List.range_eq_range']
  · intro o ho ht
    have hmap : (indexAssignment (order rs)).map (fun p => p.1.id)
        = ((order rs).filter (fun o => o.type == "EMPTY")).map Obj.id := by
      rw [hia]
      rw [show (fun p : Obj × Nat => p.1.id) = Obj.id ∘ Prod.fst from rfl]
      rw [← List.map_map, pairsFrom_map_fst]
    rw [hmap]
    have hnd2 : (((order rs).filter (fun o => o.type == "EMPTY")).map Obj.id).Nodup := by
      have hperm : ((order rs).map Obj.id).Perm (rs.map Obj.id) := h2.map Obj.id
      exact List.Nodup.sublist ((List.filter_sublist _).map Obj.id) (hperm.nodup_iff.mpr hnd)
    have hmem : o.id ∈ ((order rs).filter (fun o => o.type == "EMPTY")).map Obj.id := by
      refine List.mem_map_of_mem _ ?_
      refine List.mem_filter.mpr ⟨h2.mem_iff.mpr ho, ?_⟩
      simp [ht]
    exact List.count_eq_one_of_mem hnd2 hmem
  · rw [rocketLoop_eq, hia]

/-- Witness for C4 on the fixture scene, whose member `B` belongs to both
configured groups yet is indexed once. -/
theorem c4_contiguous_unique_indices_witness :
    (gatherAllRockets scene0 props0.rocket_groups [] = Except.ok [objA, objB, objC]
     ∧ ([objA, objB, objC] : List Obj).Perm [objA, objB, objC])
    ∧ ((indexAssignment [objA, objB, objC]).map Prod.snd
          = List.range ((([objA, objB, objC] : List Obj).filter
              (fun o => o.type == "EMPTY")).length)
       ∧ (([objA, objB, objC] : List Obj).filter (fun o => o.type == "EMPTY")).length
          = (([objA, objB, objC] : List Obj).filter (fun o => o.type == "EMPTY")).length
       ∧ (([objA, objB, objC] : List Obj).map Obj.id).Nodup
       ∧ (∀ o ∈ ([objA, objB, objC] : List Obj), o.type = "EMPTY" →
           ((indexAssignment [objA, objB, objC]).map (fun p => p.1.id)).count o.id = 1)
       ∧ (rocketLoop [objA, objB, objC]).1
          = (indexAssignment [objA, objB, objC]).map (fun p => defineStr p.1 p.2)) :=
  ⟨⟨rfl, List.Perm.refl _⟩,
   c4_contiguous_unique_indices (fun l => l) props0 scene0 [objA, objB, objC] rfl
     (List.Perm.refl _)⟩

/-- Witness for C2: on the fixture scene with cage name `MISSING`, the
export fails with `resourceNotFound` and any previous file state persists. -/
theorem c2_missing_resource_aborts_without_write_witness :
    (lookupObject scene0 propsNoCage.ccage = none
     ∨ ((∃ cage, lookupObject scene0 propsNoCage.ccage = some cage ∧ ∃ mesh, cage.data = some mesh)
        ∧ ∃ g ∈ propsNoCage.rocket_groups, lookupGroup scene0 g.group = none))
    ∧ ((∃ n, execute (fun l => l) propsNoCage scene0
          = Except.error (ExportError.resourceNotFound n))
       ∧ ∀ prev, runExportToFile (fun l => l) propsNoCage scene0 prev = prev) :=
  ⟨Or.inl rfl,
   c2_missing_resource_aborts_without_write (fun l => l) propsNoCage scene0 (Or.inl rfl)⟩

end Orbiter
